import Mathlib

/-!
Shallow embedding of the analytics core of the FTF policy-comparator app
(src/app.py): dataset rows, completeness scoring, gap counting, filtering,
KPI aggregation and the two-country comparator, together with proofs of
the specified properties.
-/

namespace PolicyComparator

/-- Python's `str.strip()` as used at src/app.py line 63: drop leading and
trailing whitespace characters. Modelled structurally over the character
list so that it evaluates inside the kernel. -/
def pyStrip (s : String) : String :=
  String.mk (((s.data.dropWhile Char.isWhitespace).reverse.dropWhile Char.isWhitespace).reverse)

/-- One row of the policy-matrix dataframe as produced by the CSV load at
src/app.py line 26: the nine source columns. A missing country cell is
`none` (pandas NaN); every other column is kept as its raw string. -/
structure PolicyRow where
  country : Option String
  last_update : String
  review_status : String
  prevention : String
  administrative : String
  criminal_justice : String
  surveillance : String
  rehab_reintegration : String
  women_children_notes : String
  notes : String
deriving DecidableEq, Repr

/-- The six policy columns (src/app.py lines 31-38), as field accessors. -/
def POLICY_COLUMNS : List (PolicyRow → String) :=
  [PolicyRow.prevention, PolicyRow.administrative, PolicyRow.criminal_justice,
   PolicyRow.surveillance, PolicyRow.rehab_reintegration, PolicyRow.women_children_notes]

/-- The six raw policy-field values of one row, in column order. -/
def policyValues (row : PolicyRow) : List String :=
  POLICY_COLUMNS.map (fun col => col row)

/-- The score dictionary YES_SCORE (src/app.py line 55) together with the
`.get(val, 0.0)` default: any value other than the three known ones
scores 0.0. -/
def YES_SCORE (val : String) : ℚ :=
  if val = "Yes" then 1.0
  else if val = "Partial" then 0.5
  else if val = "No" then 0.0
  else 0.0

/-- Round a rational to the nearest integer, ties to even, as Python's
built-in `round` behaves on the exact values reachable here. -/
def roundHalfEven (q : ℚ) : ℤ :=
  if q - (Int.floor q : ℚ) < 1/2 then Int.floor q
  else if (1 : ℚ)/2 < q - (Int.floor q : ℚ) then Int.floor q + 1
  else if Int.floor q % 2 = 0 then Int.floor q else Int.floor q + 1

/-- Python's `round(q, 1)`: round to one decimal place. -/
def pyRound1 (q : ℚ) : ℚ :=
  ((roundHalfEven (q * 10) : ℤ) : ℚ) / 10

/-- `calc_country_completeness` (src/app.py lines 60-65): strip each of the
six policy values, map it through YES_SCORE with default 0.0, average,
scale to a percentage and round to one decimal. -/
def calc_country_completeness (row : PolicyRow) : ℚ :=
  let scores := POLICY_COLUMNS.map (fun col => YES_SCORE (pyStrip (col row)))
  pyRound1 ((scores.sum / (scores.length : ℚ)) * 100)

/-- `count_gap_fields` (src/app.py lines 70-75): for each policy column,
count the rows whose raw value equals the literal string No, and sum the
six column counts. -/
def count_gap_fields (rows : List PolicyRow) : ℕ :=
  (POLICY_COLUMNS.map (fun col => rows.countP (fun r => col r == "No"))).sum

/-- The load pipeline (src/app.py lines 26 and 78): every parsed row is
kept and annotated with its derived completeness percentage; no row is
filtered out at this stage. -/
def load (raw_rows : List PolicyRow) : List (PolicyRow × ℚ) :=
  raw_rows.map (fun r => (r, calc_country_completeness r))

/-- `countries` (src/app.py line 84): the sorted list of distinct non-null
country values; `dropna` removes rows whose country cell is NaN and
`unique` keeps the first occurrence of each value before sorting. -/
def countries (rows : List PolicyRow) : List String :=
  ((rows.filterMap (fun r => r.country)).dedup).mergeSort (fun a b => decide (a ≤ b))

/-- `filtered_df` (src/app.py lines 103-110): keep the rows whose country
is among the selected countries and whose review status is among the
selected statuses; when a category focus is chosen, further keep only the
rows whose value in that column is Yes or Partial. A `none` focus is the
source's sentinel value Semua. -/
def filtered_df (rows : List PolicyRow) (selected_countries selected_status : List String)
    (selected_category : Option (PolicyRow → String)) : List PolicyRow :=
  let base := rows.filter (fun r =>
    (match r.country with
     | some c => selected_countries.contains c
     | none => false)
    && selected_status.contains r.review_status)
  match selected_category with
  | none => base
  | some col => base.filter (fun r => (["Yes", "Partial"] : List String).contains (col r))

/-- The KPI card values of src/app.py lines 121-127, named after the
source variables. -/
structure KPI where
  total_country : ℕ
  green_count : ℕ
  yellow_count : ℕ
  red_count : ℕ
  avg_completeness : ℚ
  gap_fields : ℕ
deriving DecidableEq, Repr

/-- The KPI computation (src/app.py lines 121-127): row count, per-status
counts, rounded mean completeness guarded by the emptiness check, and the
gap count guarded the same way. -/
def summarize (rows : List PolicyRow) : KPI :=
  ⟨rows.length,
   rows.countP (fun r => r.review_status == "Green"),
   rows.countP (fun r => r.review_status == "Yellow"),
   rows.countP (fun r => r.review_status == "Red"),
   if 0 < rows.length then
     pyRound1 ((rows.map calc_country_completeness).sum / (rows.length : ℚ))
   else 0.0,
   if 0 < rows.length then count_gap_fields rows else 0⟩

/-- The per-category comparator verdict. The source (src/app.py lines
212-219) renders these as the strings Sama, lebih kuat for A, lebih kuat
for B, and Berbeda. -/
inductive Verdict where
  | equal : Verdict
  | aStronger : Verdict
  | bStronger : Verdict
  | divergent : Verdict
deriving DecidableEq, Repr, BEq

/-- The comparator's per-category branch chain (src/app.py lines 212-219),
literally: string equality first, then the two explicit strength
disjunctions, else divergent. -/
def verdictOf (a_val b_val : String) : Verdict :=
  if a_val = b_val then Verdict.equal
  else if (a_val = "Yes" ∧ b_val ∈ (["Partial", "No"] : List String)) ∨
          (a_val = "Partial" ∧ b_val = "No") then Verdict.aStronger
  else if (b_val = "Yes" ∧ a_val ∈ (["Partial", "No"] : List String)) ∨
          (b_val = "Partial" ∧ a_val = "No") then Verdict.bStronger
  else Verdict.divergent

/-- One line of the comparison table: the two raw values and the verdict. -/
structure CompareEntry where
  valueA : String
  valueB : String
  note : Verdict
deriving DecidableEq, Repr, BEq

/-- `compare_rows` (src/app.py lines 207-226): one entry per policy
column, in column order. -/
def compare_rows (row_a row_b : PolicyRow) : List CompareEntry :=
  POLICY_COLUMNS.map (fun col => ⟨col row_a, col row_b, verdictOf (col row_a) (col row_b)⟩)

/-- The overall narrative summary (src/app.py lines 232-239). The scores
are carried in the order they are embedded in the source's message. -/
inductive Summary where
  | aMoreComplete : ℚ → ℚ → Summary
  | bMoreComplete : ℚ → ℚ → Summary
  | equallyComplete : ℚ → Summary
deriving DecidableEq, Repr

/-- The summary computation (src/app.py lines 232-239): compare the two
completeness percentages. -/
def summaryOf (row_a row_b : PolicyRow) : Summary :=
  let score_a := calc_country_completeness row_a
  let score_b := calc_country_completeness row_b
  if score_a > score_b then Summary.aMoreComplete score_a score_b
  else if score_b > score_a then Summary.bMoreComplete score_b score_a
  else Summary.equallyComplete score_a

/-- Row lookup by country (src/app.py lines 204-205): filter the dataset
on the country column and take the first row; an empty filter result is
the NotFound condition (the source's `.iloc[0]` would raise there). -/
def lookupCountry (rows : List PolicyRow) (c : String) : Option PolicyRow :=
  (rows.filter (fun r => r.country == some c)).head?

/-- The whole comparator step (src/app.py lines 204-239): resolve both
identifiers, then build the comparison table and the narrative summary;
`none` is the NotFound failure. -/
def compareCountries (rows : List PolicyRow) (country_a country_b : String) :
    Option (List CompareEntry × Summary) :=
  match lookupCountry rows country_a, lookupCountry rows country_b with
  | some row_a, some row_b => some (compare_rows row_a row_b, summaryOf row_a row_b)
  | _, _ => none

/-- The embedded dataset CSV_DATA (src/app.py lines 15-24), one value per
column in source order. -/
def df : List PolicyRow :=
  [⟨some ("Indonesia"), "2026-02-20", "Green", "Yes", "Partial", "Yes", "Partial", "Yes",
    "Partial", "Pendekatan kombinasi penegakan + pencegahan"⟩,
   ⟨some ("Malaysia"), "2026-02-10", "Yellow", "Yes", "Yes", "Yes", "Yes", "Partial",
    "Yes", "Penguatan koordinasi lintas lembaga"⟩,
   ⟨some ("Philippines"), "2026-01-28", "Red", "Partial", "No", "Yes", "Partial", "Partial",
    "No", "Data terbatas pada aspek reintegrasi"⟩,
   ⟨some ("France"), "2026-02-15", "Green", "Yes", "Yes", "Yes", "Yes", "Yes",
    "Yes", "Instrumen hukum dan pengawasan relatif kuat"⟩,
   ⟨some ("Germany"), "2026-02-12", "Green", "Yes", "Yes", "Yes", "Yes", "Yes",
    "Yes", "Program reintegrasi cukup berkembang"⟩,
   ⟨some ("Turkey"), "2026-01-30", "Yellow", "Partial", "Yes", "Yes", "Yes", "Partial",
    "Partial", "Perlu update data perempuan & anak"⟩,
   ⟨some ("Iraq"), "2026-01-25", "Red", "Partial", "Partial", "Yes", "Partial", "No",
    "No", "Gap data rehabilitasi masih besar"⟩,
   ⟨some ("Kazakhstan"), "2026-02-05", "Yellow", "Yes", "Yes", "Yes", "Partial", "Yes",
    "Yes", "Menarik untuk pembelajaran repatriasi"⟩]

/-- A record whose prevention cell is the whitespace-padded string Yes and
whose other five policy cells are the literal No: the input separating
stripped from unstripped scoring. -/
def rowPaddedYes : PolicyRow :=
  ⟨some ("X"), "2026-01-01", "Green", " Yes ", "No", "No", "No", "No", "No", ""⟩

/-- A record all six of whose policy cells are the whitespace-padded
string Yes. -/
def rowAllPaddedYes : PolicyRow :=
  ⟨some ("X"), "2026-01-01", "Green", " Yes ", " Yes ", " Yes ", " Yes ", " Yes ", " Yes ", ""⟩

/-- A record all six of whose policy cells are the whitespace-padded
string No. -/
def rowAllPaddedNo : PolicyRow :=
  ⟨some ("X"), "2026-01-01", "Green", " No ", " No ", " No ", " No ", " No ", " No ", ""⟩

/-- A parsed row whose country cell is missing (pandas NaN). -/
def rowNoCountry : PolicyRow :=
  ⟨none, "2026-01-01", "Green", "Yes", "Yes", "Yes", "Yes", "Yes", "Yes", ""⟩

/-- The completeness formula exactly as the specification words it: each
raw field value is mapped through the score table directly, with no
whitespace stripping. Spec side of the refinement for the scoring claim. -/
def claimCompleteness (row : PolicyRow) : ℚ :=
  let scores := POLICY_COLUMNS.map (fun col => YES_SCORE (col row))
  pyRound1 ((scores.sum / (scores.length : ℚ)) * 100)

/-- The strength rank of the three known values, spec side: Yes above
Partial above No, and no rank for anything else. -/
def strengthRank (v : String) : Option ℕ :=
  if v = "Yes" then some 2
  else if v = "Partial" then some 1
  else if v = "No" then some 0
  else none

/-- The verdict rule exactly as the specification words it: literal
equality first, then strict strength comparison within the three ranked
values, else divergent. Spec side of the refinement for the comparator
claim. -/
def specVerdict (a b : String) : Verdict :=
  if a = b then Verdict.equal
  else
    match strengthRank a, strengthRank b with
    | some ra, some rb =>
        if rb < ra then Verdict.aStronger
        else if ra < rb then Verdict.bStronger
        else Verdict.divergent
    | _, _ => Verdict.divergent

/-- Counting with a predicate is summing indicator values. -/
lemma countP_eq_sum_map {α : Type} (p : α → Bool) (l : List α) :
    l.countP p = (l.map (fun x => if p x then 1 else 0)).sum := by
  induction l with
  | nil => rfl
  | cons a t ih =>
      simp only [List.countP_cons, ih, List.map_cons, List.sum_cons]
      omega

/-- Sums of pointwise sums split. -/
lemma sum_map_add {α : Type} (f g : α → ℕ) (l : List α) :
    (l.map (fun x => f x + g x)).sum = (l.map f).sum + (l.map g).sum := by
  induction l with
  | nil => rfl
  | cons a t ih => simp only [List.map_cons, List.sum_cons, ih]; omega

/-- Exchanging the two summation orders of a column-major count: summing a
per-column count over the columns equals summing a per-row count over the
rows. -/
lemma sum_countP_getters (gs : List (PolicyRow → String)) (p : String → Bool)
    (rows : List PolicyRow) :
    (gs.map (fun g => rows.countP (fun r => p (g r)))).sum
      = (rows.map (fun r => (gs.map (fun g => g r)).countP p)).sum := by
  induction gs with
  | nil => simp
  | cons g gs ih =>
      simp only [List.map_cons, List.sum_cons, List.countP_cons, ih]
      have hcount : rows.countP (fun r => p (g r))
          = (rows.map (fun r => if p (g r) then 1 else 0)).sum :=
        countP_eq_sum_map (fun r => p (g r)) rows
      have hsplit : (rows.map (fun r => (gs.map (fun g2 => g2 r)).countP p
            + if p (g r) then 1 else 0)).sum
          = (rows.map (fun r => (gs.map (fun g2 => g2 r)).countP p)).sum
            + (rows.map (fun r => if p (g r) then 1 else 0)).sum :=
        sum_map_add _ _ rows
      rw [hsplit, hcount]
      exact Nat.add_comm _ _

/-- Every score the table can emit is nonnegative. -/
lemma YES_SCORE_nonneg (v : String) : 0 ≤ YES_SCORE v := by
  unfold YES_SCORE
  split_ifs <;> norm_num

/-- Every score the table can emit is at most one. -/
lemma YES_SCORE_le_one (v : String) : YES_SCORE v ≤ 1 := by
  unfold YES_SCORE
  split_ifs <;> norm_num

/-- Half-even integer rounding of a nonnegative rational is nonnegative. -/
lemma roundHalfEven_nonneg (q : ℚ) (h : 0 ≤ q) : 0 ≤ roundHalfEven q := by
  have hf : (0:ℤ) ≤ Int.floor q := Int.floor_nonneg.mpr h
  unfold roundHalfEven
  split_ifs <;> omega

/-- Half-even integer rounding never exceeds an integer bound of its
argument. -/
lemma roundHalfEven_le_of_le (q : ℚ) (n : ℤ) (h : q ≤ (n:ℚ)) : roundHalfEven q ≤ n := by
  have hfl : Int.floor q ≤ n := by
    have h2 := Int.floor_le_floor h
    simpa using h2
  have hq : (Int.floor q : ℚ) ≤ q := Int.floor_le q
  unfold roundHalfEven
  split_ifs with h1 h2 h3
  · exact hfl
  · have hlt : (Int.floor q : ℚ) < (n:ℚ) := by push_neg at h1; linarith
    have hlt2 : Int.floor q < n := by exact_mod_cast hlt
    omega
  · exact hfl
  · have hlt : (Int.floor q : ℚ) < (n:ℚ) := by push_neg at h1; linarith
    have hlt2 : Int.floor q < n := by exact_mod_cast hlt
    omega

/-- One-decimal rounding of a nonnegative rational is nonnegative. -/
lemma pyRound1_nonneg (q : ℚ) (h : 0 ≤ q) : 0 ≤ pyRound1 q := by
  have h1 : (0:ℤ) ≤ roundHalfEven (q * 10) := roundHalfEven_nonneg _ (by linarith)
  have h2 : (0:ℚ) ≤ ((roundHalfEven (q * 10) : ℤ) : ℚ) := by exact_mod_cast h1
  unfold pyRound1
  exact div_nonneg h2 (by norm_num)

/-- One-decimal rounding of a rational at most 100 stays at most 100. -/
lemma pyRound1_le_100 (q : ℚ) (h : q ≤ 100) : pyRound1 q ≤ 100 := by
  have h1 : roundHalfEven (q * 10) ≤ (1000:ℤ) :=
    roundHalfEven_le_of_le _ 1000 (by push_cast; linarith)
  have h2 : ((roundHalfEven (q * 10) : ℤ) : ℚ) ≤ 1000 := by exact_mod_cast h1
  unfold pyRound1
  linarith

/-- C3: the gap count is exactly the number of policy-field values across
all records and all six columns that are the literal string No; values
that merely score 0.0 do not contribute. -/
theorem gap_count_counts_literal_no (rows : List PolicyRow) :
    count_gap_fields rows = ((rows.map policyValues).flatten.countP (fun v => v == "No")) := by
  unfold count_gap_fields
  rw [sum_countP_getters POLICY_COLUMNS (fun v => v == "No") rows]
  rw [List.countP_flatten, List.map_map]
  simp only [Function.comp_def, policyValues]

/-- C1 (amended): the completeness score equals the one-decimal rounding
of 100 times the mean of the six field scores, where each field value is
stripped of surrounding whitespace before the score lookup, and the
result always lies between 0 and 100. -/
theorem completeness_is_rounded_mean_in_range (row : PolicyRow) :
    calc_country_completeness row
      = pyRound1 (100 * (((policyValues row).map (fun v => YES_SCORE (pyStrip v))).sum / 6))
    ∧ 0 ≤ calc_country_completeness row ∧ calc_country_completeness row ≤ 100 := by
  obtain ⟨hp0, hp1⟩ : 0 ≤ YES_SCORE (pyStrip row.prevention) ∧
      YES_SCORE (pyStrip row.prevention) ≤ 1 := ⟨YES_SCORE_nonneg _, YES_SCORE_le_one _⟩
  obtain ⟨ha0, ha1⟩ : 0 ≤ YES_SCORE (pyStrip row.administrative) ∧
      YES_SCORE (pyStrip row.administrative) ≤ 1 := ⟨YES_SCORE_nonneg _, YES_SCORE_le_one _⟩
  obtain ⟨hc0, hc1⟩ : 0 ≤ YES_SCORE (pyStrip row.criminal_justice) ∧
      YES_SCORE (pyStrip row.criminal_justice) ≤ 1 := ⟨YES_SCORE_nonneg _, YES_SCORE_le_one _⟩
  obtain ⟨hs0, hs1⟩ : 0 ≤ YES_SCORE (pyStrip row.surveillance) ∧
      YES_SCORE (pyStrip row.surveillance) ≤ 1 := ⟨YES_SCORE_nonneg _, YES_SCORE_le_one _⟩
  obtain ⟨hr0, hr1⟩ : 0 ≤ YES_SCORE (pyStrip row.rehab_reintegration) ∧
      YES_SCORE (pyStrip row.rehab_reintegration) ≤ 1 := ⟨YES_SCORE_nonneg _, YES_SCORE_le_one _⟩
  obtain ⟨hw0, hw1⟩ : 0 ≤ YES_SCORE (pyStrip row.women_children_notes) ∧
      YES_SCORE (pyStrip row.women_children_notes) ≤ 1 := ⟨YES_SCORE_nonneg _, YES_SCORE_le_one _⟩
  unfold calc_country_completeness policyValues POLICY_COLUMNS
  simp only [List.map_cons, List.map_nil, List.sum_cons, List.sum_nil,
    List.length_cons, List.length_nil]
  norm_num
  refine ⟨?_, ?_, ?_⟩
  · congr 1
    ring
  · apply pyRound1_nonneg
    linarith
  · apply pyRound1_le_100
    linarith

/-- The code's verdict branch chain agrees pointwise with the spec's
rank-based rule. -/
lemma verdictOf_eq_specVerdict (a b : String) : verdictOf a b = specVerdict a b := by
  unfold verdictOf specVerdict
  by_cases hab : a = b
  · simp [hab]
  · simp only [if_neg hab]
    by_cases ha1 : a = "Yes" <;> by_cases ha2 : a = "Partial" <;> by_cases ha3 : a = "No" <;>
      by_cases hb1 : b = "Yes" <;> by_cases hb2 : b = "Partial" <;> by_cases hb3 : b = "No" <;>
      simp_all [strengthRank]

/-- C2: for every pair of records and each of the six policy fields, the
comparator's verdict is Equal iff the two values are the same literal
string, else A-stronger iff A's value is strictly stronger under the
order Yes above Partial above No within the three known values, else
B-stronger symmetrically, else Divergent. -/
theorem compare_rows_verdicts_follow_strength_order (row_a row_b : PolicyRow) :
    compare_rows row_a row_b =
      POLICY_COLUMNS.map (fun col =>
        ⟨col row_a, col row_b, specVerdict (col row_a) (col row_b)⟩) := by
  simp only [compare_rows, verdictOf_eq_specVerdict]

/-- C6: filtering with an empty country set or an empty status set yields
the empty sequence, whatever the dataset and the category focus. -/
theorem empty_selection_filters_to_nil (rows : List PolicyRow)
    (selected_countries selected_status : List String)
    (selected_category : Option (PolicyRow → String)) :
    filtered_df rows [] selected_status selected_category = [] ∧
    filtered_df rows selected_countries [] selected_category = [] := by
  constructor <;>
  · unfold filtered_df
    cases selected_category <;>
      simp only [List.filter_eq_nil_iff, List.filter_filter] <;>
      intro r hr <;>
      cases hc : r.country <;>
      simp [hc]

/-- C8: summarizing the empty record sequence yields count 0, average
completeness 0.0, gap count 0 and all-zero status counts. -/
theorem summarize_nil_is_all_zero :
    summarize [] = ⟨0, 0, 0, 0, 0.0, 0⟩ := rfl

/-- C9: comparing a record with itself yields the verdict Equal in every
one of the six categories and the equally-complete overall summary
carrying the record's one-decimal completeness score. -/
theorem compare_self_equal (row_a : PolicyRow) :
    ((compare_rows row_a row_a).all (fun e => e.note == Verdict.equal)) = true ∧
    summaryOf row_a row_a = Summary.equallyComplete (calc_country_completeness row_a) := by
  constructor
  · simp only [compare_rows, POLICY_COLUMNS, List.map, List.all_cons, List.all_nil,
      verdictOf, if_pos rfl]
    rfl
  · simp [summaryOf]

/-- C1 (counterexample): on a record whose prevention cell is the
whitespace-padded string Yes, the code's completeness differs from the
spec's formula over the raw values: the code strips before the lookup and
scores 16.7, while the raw-value formula scores 0. -/
theorem completeness_claim_counterexample :
    calc_country_completeness rowPaddedYes ≠ claimCompleteness rowPaddedYes
    ∧ calc_country_completeness rowPaddedYes = 167/10
    ∧ claimCompleteness rowPaddedYes = 0 := by
  have hy : pyStrip (" Yes ") = "Yes" := by decide
  have hn : pyStrip ("No") = "No" := by decide
  have h2 : calc_country_completeness rowPaddedYes = 167/10 := by
    unfold calc_country_completeness rowPaddedYes POLICY_COLUMNS
    simp [hy, hn, YES_SCORE]
    norm_num [pyRound1, roundHalfEven]
  have h3 : claimCompleteness rowPaddedYes = 0 := by
    unfold claimCompleteness rowPaddedYes POLICY_COLUMNS
    simp [YES_SCORE]
    norm_num [pyRound1, roundHalfEven]
  refine ⟨?_, h2, h3⟩
  rw [h2, h3]
  norm_num

/-- C10: scoring strips surrounding whitespace before the table lookup, so
a padded Yes scores 1.0 and a record of padded Yes values is 100 percent
complete, while gap counting compares the raw cell to the literal No, so
a padded No scores 0.0 yet contributes no gap, and the five literal No
cells of the padded-Yes record all count. -/
theorem scoring_strips_gap_counting_raw :
    YES_SCORE (pyStrip (" Yes ")) = 1
    ∧ YES_SCORE (" Yes ") = 0
    ∧ calc_country_completeness rowAllPaddedYes = 100
    ∧ YES_SCORE (pyStrip (" No ")) = 0
    ∧ calc_country_completeness rowAllPaddedNo = 0
    ∧ count_gap_fields [rowAllPaddedNo] = 0
    ∧ count_gap_fields [rowPaddedYes] = 5 := by
  have hy : pyStrip (" Yes ") = "Yes" := by decide
  have hn : pyStrip (" No ") = "No" := by decide
  refine ⟨?_, ?_, ?_, ?_, ?_, by decide, by decide⟩
  · rw [hy]
    simp [YES_SCORE]
    norm_num
  · simp [YES_SCORE]
    norm_num
  · unfold calc_country_completeness rowAllPaddedYes POLICY_COLUMNS
    simp [hy, YES_SCORE]
    norm_num [pyRound1, roundHalfEven]
  · rw [hn]
    simp [YES_SCORE]
    norm_num
  · unfold calc_country_completeness rowAllPaddedNo POLICY_COLUMNS
    simp [hn, YES_SCORE]
    norm_num [pyRound1, roundHalfEven]

/-- C5 (counterexample): a parsed row with a missing country cell is not
excluded by the load pipeline; it stays in the loaded dataset. -/
theorem load_keeps_missing_country_row :
    (load [rowNoCountry]).map Prod.fst = [rowNoCountry]
    ∧ rowNoCountry.country = none
    ∧ (load [rowNoCountry]).length = 1 :=
  ⟨rfl, rfl, rfl⟩

/-- C5 (amended): the load pipeline drops no row at all, whatever its
cells hold; a missing country only excludes the row's country from the
derived selectable country list, silently. -/
theorem load_drops_no_rows (raw_rows : List PolicyRow) :
    (load raw_rows).map Prod.fst = raw_rows
    ∧ (∀ c, c ∈ countries raw_rows ↔ ∃ r, r ∈ raw_rows ∧ r.country = some c) := by
  constructor
  · simp [load, List.map_map, Function.comp_def]
  · intro c
    unfold countries
    simp [List.mem_mergeSort, List.mem_dedup, List.mem_filterMap]

/-- Under a dataset whose country column is duplicate-free, the filter on
one country keeps at most one row. -/
lemma filter_country_length_le_one (rows : List PolicyRow) (c : String)
    (h : (rows.filterMap (fun r => r.country)).Nodup) :
    (rows.filter (fun r => r.country == some c)).length ≤ 1 := by
  induction rows with
  | nil => simp
  | cons r t ih =>
      cases hc : r.country with
      | none =>
          simp only [List.filterMap_cons, hc] at h
          simpa [List.filter_cons, hc] using ih h
      | some cv =>
          simp only [List.filterMap_cons, hc, List.nodup_cons] at h
          obtain ⟨hnotin, hnd⟩ := h
          by_cases hceq : cv = c
          · subst hceq
            have ht : t.filter (fun r2 => r2.country == some cv) = [] := by
              rw [List.filter_eq_nil_iff]
              intro a ha hbeq
              exact hnotin (List.mem_filterMap.mpr ⟨a, ha, by simpa using hbeq⟩)
            simp [List.filter_cons, hc, ht]
          · have hf : (some cv == some c) = false := by simp [hceq]
            simpa [List.filter_cons, hc, hf] using ih hnd

/-- In a list of length at most one, any two members coincide. -/
lemma eq_of_mem_of_length_le_one {α : Type} {l : List α} (h : l.length ≤ 1) {a b : α}
    (ha : a ∈ l) (hb : b ∈ l) : a = b := by
  cases l with
  | nil => exact absurd ha (List.not_mem_nil a)
  | cons x t =>
      cases t with
      | nil =>
          have h1 : a = x := by simpa using ha
          have h2 : b = x := by simpa using hb
          rw [h1, h2]
      | cons y t2 => simp at h

/-- C4: under the dataset invariant that country values are unique, a
successful lookup resolves to exactly the one record carrying that
country; the comparison fails with NotFound exactly when one of the two
identifiers fails to resolve, and a lookup fails exactly when no record
carries the identifier. -/
theorem lookup_resolves_unique_and_notfound (rows : List PolicyRow)
    (country_a country_b : String)
    (h : (rows.filterMap (fun r => r.country)).Nodup) :
    (∀ r, lookupCountry rows country_a = some r →
        r ∈ rows ∧ r.country = some country_a ∧
          ∀ r2, r2 ∈ rows → r2.country = some country_a → r2 = r)
    ∧ ((compareCountries rows country_a country_b = none)
        ↔ (lookupCountry rows country_a = none ∨ lookupCountry rows country_b = none))
    ∧ ((lookupCountry rows country_a = none)
        ↔ ∀ r, r ∈ rows → r.country ≠ some country_a) := by
  refine ⟨?_, ?_, ?_⟩
  · intro r hr
    have hmem : r ∈ rows.filter (fun r2 => r2.country == some country_a) := by
      unfold lookupCountry at hr
      exact List.mem_of_mem_head? hr
    have hmf := List.mem_filter.mp hmem
    refine ⟨hmf.1, by simpa using hmf.2, ?_⟩
    intro r2 h2mem h2c
    have hlen := filter_country_length_le_one rows country_a h
    have h2f : r2 ∈ rows.filter (fun r3 => r3.country == some country_a) :=
      List.mem_filter.mpr ⟨h2mem, by simp [h2c]⟩
    exact eq_of_mem_of_length_le_one hlen h2f hmem
  · unfold compareCountries
    cases h1 : lookupCountry rows country_a <;>
      cases h2 : lookupCountry rows country_b <;> simp
  · unfold lookupCountry
    rw [List.head?_eq_none_iff, List.filter_eq_nil_iff]
    constructor
    · intro hall r hrmem hcq
      have hb := hall r hrmem
      simp [hcq] at hb
    · intro hall r hrmem
      simpa using hall r hrmem

/-- C4 (witness): on the embedded dataset, whose countries are pairwise
distinct, the lookup and NotFound properties hold for Indonesia against a
country absent from the data. -/
theorem lookup_resolves_unique_and_notfound_witness :
    (df.filterMap (fun r => r.country)).Nodup
    ∧ ((∀ r, lookupCountry df ("Indonesia") = some r →
          r ∈ df ∧ r.country = some ("Indonesia") ∧
            ∀ r2, r2 ∈ df → r2.country = some ("Indonesia") → r2 = r)
      ∧ ((compareCountries df ("Indonesia") ("Atlantis") = none)
          ↔ (lookupCountry df ("Indonesia") = none ∨ lookupCountry df ("Atlantis") = none))
      ∧ ((lookupCountry df ("Indonesia") = none)
          ↔ ∀ r, r ∈ df → r.country ≠ some ("Indonesia"))) :=
  ⟨by decide, lookup_resolves_unique_and_notfound df ("Indonesia") ("Atlantis") (by decide)⟩

/-- C7: with the country set equal to the dataset's own country list, the
status set equal to the three known statuses and no category focus, the
filter is the identity, provided every row has a country and one of the
three statuses. -/
theorem filter_with_everything_selected_is_identity (rows : List PolicyRow)
    (hcountry : ∀ r, r ∈ rows → r.country.isSome = true)
    (hstatus : ∀ r, r ∈ rows → r.review_status ∈ (["Green", "Yellow", "Red"] : List String)) :
    filtered_df rows (countries rows) (["Green", "Yellow", "Red"]) none = rows := by
  unfold filtered_df
  rw [List.filter_eq_self]
  intro r hr
  obtain ⟨c, hc⟩ : ∃ c, r.country = some c :=
    Option.isSome_iff_exists.mp (hcountry r hr)
  have hcmem : c ∈ countries rows := by
    unfold countries
    simp only [List.mem_mergeSort, List.mem_dedup, List.mem_filterMap]
    exact ⟨r, hr, hc⟩
  have hs := hstatus r hr
  simp [hc, hcmem, hs]

/-- C7 (witness): on the embedded dataset every row has a country and one
of the three statuses, and filtering with everything selected returns the
dataset unchanged. -/
theorem filter_with_everything_selected_is_identity_witness :
    (∀ r, r ∈ df → r.country.isSome = true)
    ∧ (∀ r, r ∈ df → r.review_status ∈ (["Green", "Yellow", "Red"] : List String))
    ∧ filtered_df df (countries df) (["Green", "Yellow", "Red"]) none = df :=
  ⟨by decide, by decide,
    filter_with_everything_selected_is_identity df (by decide) (by decide)⟩

end PolicyComparator
